import Mathlib

/-!
Verification of the `kluchikru` domain model (`src/kluchikru/models.py`):
a Django model layer for a real-estate classifieds platform.  The shallow
embedding below translates the model classes, their field-level validation
and the two helper methods (`UserManager.create_user` / `create_superuser`
and `Advertisement.formatted_price`) into executable Lean definitions, and
proves the specified properties about them.

Conventions of the embedding:
* `DecimalField(max_digits=20, decimal_places=2)` values are represented by
  a natural number of kopecks (hundredths of the base unit), so the decimal
  price `p` is the rational `p = kopecks / 100`.  The claims quantify over
  non-negative prices only.
* Python `Decimal` division by `1_000_000` / `1_000` is exact here (at most
  20 significant digits, well under the context precision of 28), and the
  `:.2f` format then rounds to two decimal places with the default
  `ROUND_HALF_EVEN` context rounding; `roundHalfEven` models that step.
* `auto_now_add` timestamp columns are wall-clock effects and are omitted
  from the record types; no claim mentions them.
-/

namespace Kluchikru

/-- Round `num / den` to the nearest integer, ties to even: the rounding
performed by Python `Decimal` formatting under the default context
(`ROUND_HALF_EVEN`), for non-negative operands. -/
def roundHalfEven (num den : Nat) : Nat :=
  let q := num / den
  let r := num % den
  if 2 * r < den then q
  else if den < 2 * r then q + 1
  else if q % 2 = 0 then q else q + 1

/-- Render an amount of hundredths as a fixed two-decimal string, as the
Python format spec `:.2f` does for a non-negative value that is exact in
hundredths: integer part, a dot, then exactly two fractional digits. -/
def twoDecString (n : Nat) : String :=
  toString (n / 100) ++ "." ++
    (if n % 100 < 10 then "0" ++ toString (n % 100) else toString (n % 100))

/-- `Advertisement.STATUS_CHOICES` (models.py:113-118): the enumerated
status vocabulary, each entry a (stored value, human label) pair. -/
def STATUS_CHOICES : List (String × String) :=
  [("draft", "Черновик"),
   ("active", "Актуально"),
   ("sold", "Продано"),
   ("rented", "Арендовано")]

/-- The `Advertisement` model (models.py:112-142).  Foreign keys are the
surrogate keys of the referenced rows; `price` is in kopecks (see the file
header); `date_posted` (`auto_now_add`) is omitted. -/
structure Advertisement where
  id : Nat
  title : String
  description : String
  price : Nat
  user : Nat
  property_type : Nat
  location : Nat
  category : Nat
  status : String
deriving Repr, DecidableEq

/-- The keyword arguments available when instantiating an `Advertisement`;
`status` is optional because the column declares `default='draft'`
(models.py:127). -/
structure AdvertisementFields where
  title : String
  description : String
  price : Nat
  user : Nat
  property_type : Nat
  location : Nat
  category : Nat
  status : Option String := none
deriving Repr, DecidableEq

/-- Instantiating `Advertisement(**fields)`: a field omitted from the
keyword arguments takes the column default, so a missing `status` becomes
`'draft'` (models.py:127). -/
def Advertisement.create (i : Nat) (f : AdvertisementFields) : Advertisement :=
  { id := i
    title := f.title
    description := f.description
    price := f.price
    user := f.user
    property_type := f.property_type
    location := f.location
    category := f.category
    status := f.status.getD "draft" }

/-- `Advertisement.formatted_price` (models.py:129-135).  With `price` in
kopecks: `self.price >= 1_000_000` rubles is `100000000` kopecks, and
`self.price / 1_000_000` rendered by `:.2f` is the half-even rounding of
the price to hundredths of a million (`roundHalfEven price 1000000`);
likewise for the thousands branch.  In the last branch the value is already
exact in hundredths so `:.2f` renders it unchanged. -/
def Advertisement.formatted_price (a : Advertisement) : String :=
  if 100000000 ≤ a.price then
    twoDecString (roundHalfEven a.price 1000000) ++ " млн"
  else if 100000 ≤ a.price then
    twoDecString (roundHalfEven a.price 1000) ++ " тыс"
  else
    twoDecString a.price ++ " руб."

/-- Validation of the `status` column (models.py:127): a `CharField` with
`choices=STATUS_CHOICES` and `max_length=10`; `full_clean` accepts a value
iff it is one of the declared choice keys and within the length bound. -/
def Advertisement.statusValid (s : String) : Bool :=
  decide (s ∈ STATUS_CHOICES.map Prod.fst) && decide (s.length ≤ 10)

/-- Django `MinValueValidator(limit)`: raises a validation error exactly
when `value < limit`, so the value passes iff not below the limit. -/
def minValueOk (limit v : Int) : Bool :=
  ! decide (v < limit)

/-- Django `MaxValueValidator(limit)`: raises exactly when `limit < value`. -/
def maxValueOk (limit v : Int) : Bool :=
  ! decide (limit < v)

/-- The `Photo` model (models.py:145-148): a foreign key to its
`Advertisement` (cascade on delete), an image URL and a display order. -/
structure Photo where
  id : Nat
  advertisement : Nat
  image_url : String
  display_order : Int
deriving Repr, DecidableEq

/-- The `Review` model (models.py:158-167): foreign keys to the reviewed
`Advertisement` and the authoring `User` (both cascade), an integer rating
and a comment. -/
structure Review where
  id : Nat
  advertisement : Nat
  user : Nat
  rating : Int
  comment : String
deriving Repr, DecidableEq

/-- Validation of `Review.rating` (models.py:161-166): the validator chain
`[MinValueValidator(0), MaxValueValidator(5)]`; the value passes iff every
validator passes. -/
def Review.ratingValid (r : Int) : Bool :=
  minValueOk 0 r && maxValueOk 5 r

/-- `Notification.NOTIFICATION_TYPE_CHOICES` (models.py:190-195): the
declared notification-type vocabulary.  Note that the `notification_type`
column (models.py:198) does NOT pass this list as `choices=`. -/
def NOTIFICATION_TYPE_CHOICES : List (String × String) :=
  [("new_ad", "Новое объявление"),
   ("ad_update", "Объявление обновлено"),
   ("ad_sold", "Недвижимость продана"),
   ("ad_rented", "Недвижимость арендована")]

/-- Validation of `Notification.notification_type` (models.py:198): the
field is `CharField(max_length=50)` with no `choices` constraint attached,
so `full_clean` only enforces the length bound. -/
def Notification.typeValid (s : String) : Bool :=
  decide (s.length ≤ 50)

/-- A stored credential value.  Modelled from the spec: `set_password` /
`make_password` are Django framework code, not in `src/`; the spec says the
operation "derives a one-way salted hash from the plaintext password and
stores only the hash; plaintext is never retained".  A stored credential is
therefore a salted hash, an unusable marker (Django's behaviour when
`password=None`), or — the state the spec rules out — a raw plaintext. -/
inductive Password where
  | plaintext (raw : String)
  | hashed (salt : String) (digest : Nat)
  | unusable
deriving Repr, DecidableEq

/-- Modelled from the spec: a computable stand-in for the PBKDF2 digest of
the salted password (the concrete algorithm is delegated to the framework
and "intentionally left unspecified" by the spec). -/
def digestModel (salt raw : String) : Nat :=
  (salt ++ raw).toList.foldl
    (fun a c => (a * 131 + c.toNat) % 18446744073709551616) 7

/-- Modelled from the spec: the per-account random salt; randomness is not
part of the embedding, so a fixed model salt is used. -/
def modelSalt : String := "m0delS4lt"

/-- Modelled from the spec: Django's `AbstractBaseUser.set_password`, as
invoked at models.py:13.  A plaintext password is replaced by its salted
hash before anything is stored; `None` yields an unusable credential. -/
def set_password (pw : Option String) : Password :=
  match pw with
  | some raw => Password.hashed modelSalt (digestModel modelSalt raw)
  | none => Password.unusable

/-- The `User` model (models.py:23-44): profile strings, the unique email
login, the three boolean flags declared on the class plus `is_superuser`
from `PermissionsMixin`, and the stored credential.  `date_joined`
(`auto_now_add`) is omitted. -/
structure User where
  name : String
  surname : String
  patronymic : String
  phone_number : String
  email : String
  is_active : Bool
  is_staff : Bool
  is_agent : Bool
  is_superuser : Bool
  password : Password
deriving Repr, DecidableEq

/-- The `**extra_fields` keyword arguments accepted by the manager methods,
restricted to the `User` columns they can set; an absent key leaves the
column default in force (`is_active` defaults to `True`, the other flags to
`False`, models.py:30-32 and `PermissionsMixin`). -/
structure ExtraFields where
  name : Option String := none
  surname : Option String := none
  patronymic : Option String := none
  phone_number : Option String := none
  is_active : Option Bool := none
  is_staff : Option Bool := none
  is_agent : Option Bool := none
  is_superuser : Option Bool := none
deriving Repr, DecidableEq

/-- Django `BaseUserManager.normalize_email`, called at models.py:11
(framework code, behaviour per its implementation): strip surrounding
whitespace, split at the last `@`, and lower-case the domain part; if there
is no `@` the original string is returned unchanged. -/
def rsplitLast (sep : Char) (l : List Char) : Option (List Char × List Char) :=
  match l with
  | [] => none
  | c :: rest =>
    match rsplitLast sep rest with
    | some (a, b) => some (c :: a, b)
    | none => if c = sep then some ([], rest) else none

/-- See `rsplitLast`: the string-level normalization itself. -/
def normalize_email (email : String) : String :=
  match rsplitLast '@' email.trim.toList with
  | some (n, d) => String.mk n ++ "@" ++ String.mk (d.map Char.toLower)
  | none => email

/-- `UserManager.create_user` (models.py:8-15).  The persisted table is the
list of saved rows; the pair returned is (outcome, table after the call),
so a validation failure provably leaves the table untouched.  A falsy email
(`None` or the empty string) raises `ValueError('Email is required')`
before the user object is built, hashed or saved. -/
def UserManager.create_user (email : Option String) (password : Option String)
    (extra : ExtraFields) (db : List User) : Except String User × List User :=
  match email with
  | none => (Except.error "Email is required", db)
  | some e =>
    if e = "" then (Except.error "Email is required", db)
    else
      let user : User :=
        { name := extra.name.getD ""
          surname := extra.surname.getD ""
          patronymic := extra.patronymic.getD ""
          phone_number := extra.phone_number.getD ""
          email := normalize_email e
          is_active := extra.is_active.getD true
          is_staff := extra.is_staff.getD false
          is_agent := extra.is_agent.getD false
          is_superuser := extra.is_superuser.getD false
          password := set_password password }
      (Except.ok user, db ++ [user])

/-- `UserManager.create_superuser` (models.py:17-20):
`extra_fields.setdefault('is_staff', True)` and
`setdefault('is_superuser', True)` — a key the caller already supplied is
kept, an absent key becomes `True` — then delegates to `create_user`. -/
def UserManager.create_superuser (email : Option String) (password : Option String)
    (extra : ExtraFields) (db : List User) : Except String User × List User :=
  UserManager.create_user email password
    { extra with
      is_staff := some (extra.is_staff.getD true)
      is_superuser := some (extra.is_superuser.getD true) }
    db

/-- The persisted rows of the `Advertisement` / `Photo` / `Review` fragment
of the schema: the tables whose foreign keys the cascade claims are about. -/
structure DB where
  ads : List Advertisement
  photos : List Photo
  reviews : List Review
deriving Repr, DecidableEq

/-- The primary keys of the advertisement rows currently present. -/
def DB.adIds (db : DB) : List Nat :=
  db.ads.map (fun a => a.id)

/-- Insert an `Advertisement` row; the storage layer rejects a duplicate
primary key. -/
def DB.insertAd (db : DB) (a : Advertisement) : Option DB :=
  if a.id ∈ db.adIds then none
  else some { db with ads := db.ads ++ [a] }

/-- Insert a `Photo` row; the storage layer enforces the
`Photo.advertisement` foreign key (models.py:146), so the insert fails when
the referenced advertisement does not exist. -/
def DB.insertPhoto (db : DB) (p : Photo) : Option DB :=
  if p.advertisement ∈ db.adIds then some { db with photos := db.photos ++ [p] }
  else none

/-- Insert a `Review` row; the storage layer enforces the
`Review.advertisement` foreign key (models.py:159). -/
def DB.insertReview (db : DB) (r : Review) : Option DB :=
  if r.advertisement ∈ db.adIds then some { db with reviews := db.reviews ++ [r] }
  else none

/-- Delete the advertisement with primary key `i`.  Both `Photo` and
`Review` declare `on_delete=models.CASCADE` on their `advertisement`
foreign key (models.py:146, models.py:159), so every photo and review row
referencing the deleted advertisement is deleted with it. -/
def DB.deleteAd (db : DB) (i : Nat) : DB :=
  { ads := db.ads.filter (fun a => a.id != i)
    photos := db.photos.filter (fun p => p.advertisement != i)
    reviews := db.reviews.filter (fun r => r.advertisement != i) }

/-- No photo or review row references an advertisement that is not in the
table: the no-dangling-reference invariant. -/
def DB.NoDangling (db : DB) : Prop :=
  (∀ p ∈ db.photos, p.advertisement ∈ db.adIds) ∧
    (∀ r ∈ db.reviews, r.advertisement ∈ db.adIds)

instance (db : DB) : Decidable db.NoDangling := by
  unfold DB.NoDangling
  infer_instance

/-- The states reachable from the empty database by the model's operations
on this fragment: inserting advertisements, photos and reviews (when the
storage layer accepts the row) and cascade-deleting an advertisement. -/
inductive DB.Reachable : DB → Prop where
  | empty : DB.Reachable ⟨[], [], []⟩
  | insertAd (db db' : DB) (a : Advertisement) :
      DB.Reachable db → db.insertAd a = some db' → DB.Reachable db'
  | insertPhoto (db db' : DB) (p : Photo) :
      DB.Reachable db → db.insertPhoto p = some db' → DB.Reachable db'
  | insertReview (db db' : DB) (r : Review) :
      DB.Reachable db → db.insertReview r = some db' → DB.Reachable db'
  | deleteAd (db : DB) (i : Nat) :
      DB.Reachable db → DB.Reachable (db.deleteAd i)

/-! ## Theorems -/

/-- C1: For every non-negative decimal price p, formatPrice(p) renders: if
p ≥ 1,000,000 then p divided by 1,000,000 with two decimal places and the
"million" suffix (" млн"); if 1,000 ≤ p < 1,000,000 then p divided by
1,000 with two decimal places and the "thousand" suffix (" тыс"); if
p < 1,000 then p with two decimal places and the base currency unit suffix
(" руб.").  Prices are in kopecks, so the thresholds are 10^8 and 10^5 and
"divided by 1,000,000 with two decimal places" is the half-even rounding of
the price to hundredths of a million. -/
theorem C1_formatted_price_cases (a : Advertisement) :
    (100000000 ≤ a.price →
      a.formatted_price = twoDecString (roundHalfEven a.price 1000000) ++ " млн") ∧
    (100000 ≤ a.price → a.price < 100000000 →
      a.formatted_price = twoDecString (roundHalfEven a.price 1000) ++ " тыс") ∧
    (a.price < 100000 →
      a.formatted_price = twoDecString a.price ++ " руб.") := by
  refine ⟨fun h => ?_, fun h1 h2 => ?_, fun h => ?_⟩
  · simp only [Advertisement.formatted_price]
    rw [if_pos h]
  · simp only [Advertisement.formatted_price]
    rw [if_neg (by omega), if_pos h1]
  · simp only [Advertisement.formatted_price]
    rw [if_neg (by omega), if_neg (by omega)]

/-- Witness for C1 at the spec's three example prices: 2,340,000 ₽
(234000000 kopecks), 1,500 ₽ and 999 ₽. -/
theorem C1_witness :
    Advertisement.formatted_price ⟨1, "t", "d", 234000000, 1, 1, 1, 1, "draft"⟩
        = "2.34 млн" ∧
    Advertisement.formatted_price ⟨2, "t", "d", 150000, 1, 1, 1, 1, "draft"⟩
        = "1.50 тыс" ∧
    Advertisement.formatted_price ⟨3, "t", "d", 99900, 1, 1, 1, 1, "draft"⟩
        = "999.00 руб." := by
  refine ⟨?_, ?_, ?_⟩
  · exact ((C1_formatted_price_cases _).1 (by decide)).trans (by decide)
  · exact ((C1_formatted_price_cases _).2.1 (by decide) (by decide)).trans (by decide)
  · exact ((C1_formatted_price_cases _).2.2 (by decide)).trans (by decide)

/-- C2 counterexample: at price 999 (99900 kopecks) the code renders
"999.00 руб.", not the claimed digit string "9.99" with the base-unit
suffix — the integer part is not scaled down. -/
theorem C2_counterexample :
    Advertisement.formatted_price ⟨1, "t", "d", 99900, 1, 1, 1, 1, "draft"⟩
      ≠ "9.99 руб." := by
  decide

/-- C2 amended: formatPrice applied to the input 999 returns the digit
string "999.00" followed by the base-currency-unit suffix (exactly two
decimals, no scaling of the value). -/
theorem C2_amended_999 (a : Advertisement) (h : a.price = 99900) :
    a.formatted_price = "999.00 руб." := by
  simp only [Advertisement.formatted_price, h]
  decide

/-- Witness for C2's amended theorem at a concrete advertisement. -/
theorem C2_amended_999_witness :
    Advertisement.formatted_price ⟨1, "t", "d", 99900, 1, 1, 1, 1, "draft"⟩
      = "999.00 руб." :=
  C2_amended_999 ⟨1, "t", "d", 99900, 1, 1, 1, 1, "draft"⟩ rfl

/-- C3: For every password value and every set of extra fields,
create_user with an absent (`None`) or empty email fails with the
validation error `'Email is required'`, and the table of saved users is
returned unchanged: the failure happens before any record is written. -/
theorem C3_create_user_requires_email (pw : Option String)
    (extra : ExtraFields) (db : List User) :
    UserManager.create_user none pw extra db
        = (Except.error "Email is required", db) ∧
    UserManager.create_user (some "") pw extra db
        = (Except.error "Email is required", db) :=
  ⟨rfl, rfl⟩

/-- Witness for C3 at a concrete password, extra fields and table. -/
theorem C3_witness :
    UserManager.create_user none (some "hunter2") {} []
        = (Except.error "Email is required", ([] : List User)) ∧
    UserManager.create_user (some "") (some "hunter2") {} []
        = (Except.error "Email is required", ([] : List User)) :=
  C3_create_user_requires_email (some "hunter2") {} []

/-- C10: Every Advertisement created without an explicitly supplied status
has status `'draft'`: the column default applies. -/
theorem C10_status_defaults_to_draft (i : Nat) (f : AdvertisementFields)
    (h : f.status = none) : (Advertisement.create i f).status = "draft" := by
  simp [Advertisement.create, h]

/-- Witness for C10 at a concrete advertisement payload without status. -/
theorem C10_witness :
    (Advertisement.create 1 ⟨"t", "d", 100, 1, 1, 1, 1, none⟩).status
      = "draft" :=
  C10_status_defaults_to_draft 1 ⟨"t", "d", 100, 1, 1, 1, 1, none⟩ rfl

/-- Helper: whenever `create_user` succeeds with a plaintext password, the
returned row's credential is the salted hash of that password. -/
theorem create_user_ok_password {email : Option String} {pw : String}
    {extra : ExtraFields} {db : List User} {u : User}
    (h : (UserManager.create_user email (some pw) extra db).1 = Except.ok u) :
    u.password = Password.hashed modelSalt (digestModel modelSalt pw) := by
  cases email with
  | none => simp [UserManager.create_user] at h
  | some e =>
    by_cases he : e = ""
    · simp [UserManager.create_user, he] at h
    · simp [UserManager.create_user, he] at h
      subst h
      rfl

/-- C4: For every valid email and every plaintext password, the password
field stored on the account returned by create_user (and create_superuser)
is never equal to the plaintext input; only the derived salted hash is
persisted.  (`set_password` is spec-modelled: it is framework code outside
`src/`.) -/
theorem C4_password_never_plaintext (email : Option String) (pw : String)
    (extra : ExtraFields) (db : List User) (u v : User) :
    ((UserManager.create_user email (some pw) extra db).1 = Except.ok u →
      u.password = Password.hashed modelSalt (digestModel modelSalt pw) ∧
        u.password ≠ Password.plaintext pw) ∧
    ((UserManager.create_superuser email (some pw) extra db).1 = Except.ok v →
      v.password = Password.hashed modelSalt (digestModel modelSalt pw) ∧
        v.password ≠ Password.plaintext pw) := by
  constructor
  · intro h
    have hp := create_user_ok_password h
    exact ⟨hp, by simp [hp]⟩
  · intro h
    unfold UserManager.create_superuser at h
    have hp := create_user_ok_password h
    exact ⟨hp, by simp [hp]⟩

/-- Witness for C4: the account created for `a@b.c` / `secret` carries the
salted hash, which is not the plaintext. -/
theorem C4_witness :
    ({ name := "", surname := "", patronymic := "", phone_number := "",
       email := "a@b.c", is_active := true, is_staff := false,
       is_agent := false, is_superuser := false,
       password := Password.hashed modelSalt (digestModel modelSalt "secret") } :
        User).password ≠ Password.plaintext "secret" :=
  ((C4_password_never_plaintext (some "a@b.c") "secret" {} []
      { name := "", surname := "", patronymic := "", phone_number := "",
        email := "a@b.c", is_active := true, is_staff := false,
        is_agent := false, is_superuser := false,
        password := Password.hashed modelSalt (digestModel modelSalt "secret") }
      { name := "", surname := "", patronymic := "", phone_number := "",
        email := "a@b.c", is_active := true, is_staff := false,
        is_agent := false, is_superuser := false,
        password := Password.hashed modelSalt (digestModel modelSalt "secret") }).1
    (by with_unfolding_all rfl)).2

/-- C5: For every email, password and extra-field set, the account returned
by create_superuser has is_staff = true and is_superuser = true, except
when the caller explicitly supplies a value for one of those flags, in
which case the caller-supplied value is kept. -/
theorem C5_superuser_flags (email pw : Option String) (extra : ExtraFields)
    (db : List User) (u : User)
    (h : (UserManager.create_superuser email pw extra db).1 = Except.ok u) :
    (extra.is_staff = none → u.is_staff = true) ∧
    (∀ b, extra.is_staff = some b → u.is_staff = b) ∧
    (extra.is_superuser = none → u.is_superuser = true) ∧
    (∀ b, extra.is_superuser = some b → u.is_superuser = b) := by
  unfold UserManager.create_superuser UserManager.create_user at h
  cases email with
  | none => simp at h
  | some e =>
    by_cases he : e = ""
    · simp [he] at h
    · simp [he] at h
      subst h
      refine ⟨?_, ?_, ?_, ?_⟩
      · intro hn
        simp [hn]
      · intro b hb
        simp [hb]
      · intro hn
        simp [hn]
      · intro b hb
        simp [hb]

/-- Witness for C5: with no caller-supplied flags, the created
administrator has both privilege flags set. -/
theorem C5_witness :
    ({ name := "", surname := "", patronymic := "", phone_number := "",
       email := "a@b.c", is_active := true, is_staff := true,
       is_agent := false, is_superuser := true,
       password := Password.hashed modelSalt (digestModel modelSalt "secret") } :
        User).is_staff = true ∧
    ({ name := "", surname := "", patronymic := "", phone_number := "",
       email := "a@b.c", is_active := true, is_staff := true,
       is_agent := false, is_superuser := true,
       password := Password.hashed modelSalt (digestModel modelSalt "secret") } :
        User).is_superuser = true := by
  have h := C5_superuser_flags (some "a@b.c") (some "secret") {} []
    { name := "", surname := "", patronymic := "", phone_number := "",
      email := "a@b.c", is_active := true, is_staff := true,
      is_agent := false, is_superuser := true,
      password := Password.hashed modelSalt (digestModel modelSalt "secret") }
    (by with_unfolding_all rfl)
  exact ⟨h.1 rfl, h.2.2.1 rfl⟩

/-- C6: Review rating validation accepts every integer in [0,5] inclusive
(in particular the boundaries 0 and 5) and rejects every integer outside
that range (in particular -1 and 6). -/
theorem C6_rating_bounds :
    (∀ r : Int, Review.ratingValid r = true ↔ 0 ≤ r ∧ r ≤ 5) ∧
    Review.ratingValid 0 = true ∧ Review.ratingValid 5 = true ∧
    Review.ratingValid (-1) = false ∧ Review.ratingValid 6 = false := by
  refine ⟨fun r => ?_, by decide, by decide, by decide, by decide⟩
  simp only [Review.ratingValid, minValueOk, maxValueOk, Bool.and_eq_true,
    Bool.not_eq_eq_eq_not, Bool.not_true, decide_eq_false_iff_not]
  omega

/-- Witness for C6: the boundary rating 5 is accepted. -/
theorem C6_witness : Review.ratingValid 5 = true :=
  (C6_rating_bounds.1 5).mpr (by decide)

/-- C7: Advertisement status validation accepts exactly the four strings
draft, active, sold, rented, and rejects every other string. -/
theorem C7_status_choices (s : String) :
    Advertisement.statusValid s = true ↔
      (s = "draft" ∨ s = "active" ∨ s = "sold" ∨ s = "rented") := by
  simp only [Advertisement.statusValid, STATUS_CHOICES, List.map,
    Bool.and_eq_true, decide_eq_true_eq, List.mem_cons, List.not_mem_nil,
    or_false]
  constructor
  · rintro ⟨hc, -⟩
    exact hc
  · rintro (rfl | rfl | rfl | rfl) <;> exact ⟨by simp, by decide⟩

/-- Witness for C7: the four valid statuses are accepted and a fifth
string is rejected. -/
theorem C7_witness :
    Advertisement.statusValid "sold" = true ∧
    Advertisement.statusValid "archived" = false := by
  constructor
  · exact (C7_status_choices "sold").mpr (by decide)
  · have h := C7_status_choices "archived"
    simp only [Bool.not_eq_true] at h ⊢
    by_contra hc
    rcases h.mp (by simpa using hc) with h1 | h1 | h1 | h1 <;> simp at h1

/-- C8: the `notification_type` column has no `choices` constraint — the
declared `NOTIFICATION_TYPE_CHOICES` list is never attached to the field —
so a Notification whose type tag is outside the four-member vocabulary
passes validation and can be created. -/
theorem C8_notification_type_not_enforced :
    Notification.typeValid "bogus" = true ∧
    "bogus" ∉ NOTIFICATION_TYPE_CHOICES.map Prod.fst := by
  decide

/-- Helper: an advertisement id is present iff some advertisement row
carries it. -/
theorem mem_adIds_iff {db : DB} {t : Nat} :
    t ∈ db.adIds ↔ ∃ a ∈ db.ads, a.id = t := by
  simp [DB.adIds]

/-- Helper: the empty database has no dangling references. -/
theorem noDangling_empty : DB.NoDangling ⟨[], [], []⟩ := by
  constructor <;> intro x hx <;> simp at hx

/-- Helper: inserting an advertisement preserves the no-dangling
invariant. -/
theorem noDangling_insertAd {db db' : DB} {a : Advertisement}
    (h : db.insertAd a = some db') (hd : db.NoDangling) : db'.NoDangling := by
  unfold DB.insertAd at h
  by_cases hg : a.id ∈ db.adIds
  · rw [if_pos hg] at h
    exact absurd h (by simp)
  · rw [if_neg hg] at h
    cases h
    constructor
    · intro p hp
      have hm := hd.1 p hp
      unfold DB.adIds at hm ⊢
      simp only [List.map_append, List.mem_append]
      exact Or.inl hm
    · intro r hr
      have hm := hd.2 r hr
      unfold DB.adIds at hm ⊢
      simp only [List.map_append, List.mem_append]
      exact Or.inl hm

/-- Helper: inserting a photo (accepted only when its foreign key resolves)
preserves the no-dangling invariant. -/
theorem noDangling_insertPhoto {db db' : DB} {p : Photo}
    (h : db.insertPhoto p = some db') (hd : db.NoDangling) : db'.NoDangling := by
  unfold DB.insertPhoto at h
  by_cases hg : p.advertisement ∈ db.adIds
  · rw [if_pos hg] at h
    cases h
    constructor
    · intro q hq
      rcases List.mem_append.mp hq with hq1 | hq2
      · exact hd.1 q hq1
      · have hqp : q = p := by simpa using hq2
        subst hqp
        exact hg
    · intro r hr
      exact hd.2 r hr
  · rw [if_neg hg] at h
    exact absurd h (by simp)

/-- Helper: inserting a review (accepted only when its foreign key
resolves) preserves the no-dangling invariant. -/
theorem noDangling_insertReview {db db' : DB} {r : Review}
    (h : db.insertReview r = some db') (hd : db.NoDangling) : db'.NoDangling := by
  unfold DB.insertReview at h
  by_cases hg : r.advertisement ∈ db.adIds
  · rw [if_pos hg] at h
    cases h
    constructor
    · intro q hq
      exact hd.1 q hq
    · intro q hq
      rcases List.mem_append.mp hq with hq1 | hq2
      · exact hd.2 q hq1
      · have hqr : q = r := by simpa using hq2
        subst hqr
        exact hg
  · rw [if_neg hg] at h
    exact absurd h (by simp)

/-- Helper: cascade deletion of an advertisement preserves the no-dangling
invariant: every surviving photo or review referenced a different
advertisement, and that advertisement survives the deletion too. -/
theorem noDangling_deleteAd {db : DB} (i : Nat) (hd : db.NoDangling) :
    (db.deleteAd i).NoDangling := by
  constructor
  · intro p hp
    have hm := List.mem_filter.mp hp
    have hne : p.advertisement ≠ i := by simpa using hm.2
    rcases mem_adIds_iff.mp (hd.1 p hm.1) with ⟨a, ha, haid⟩
    refine mem_adIds_iff.mpr ⟨a, ?_, haid⟩
    exact List.mem_filter.mpr ⟨ha, by simp [haid, hne]⟩
  · intro r hr
    have hm := List.mem_filter.mp hr
    have hne : r.advertisement ≠ i := by simpa using hm.2
    rcases mem_adIds_iff.mp (hd.2 r hm.1) with ⟨a, ha, haid⟩
    refine mem_adIds_iff.mpr ⟨a, ?_, haid⟩
    exact List.mem_filter.mpr ⟨ha, by simp [haid, hne]⟩

/-- C9: After deleting any Advertisement, no Photo and no Review that
referenced it remains (the cascade removes exactly the rows whose
`advertisement` foreign key names the deleted row), and no state reachable
by the model's operations contains a Photo or Review whose advertisement
reference is dangling. -/
theorem C9_cascade_delete_no_dangling :
    (∀ (db : DB) (i : Nat),
      (∀ p ∈ (db.deleteAd i).photos, p.advertisement ≠ i) ∧
      (∀ r ∈ (db.deleteAd i).reviews, r.advertisement ≠ i)) ∧
    (∀ db : DB, DB.Reachable db → db.NoDangling) := by
  constructor
  · intro db i
    constructor
    · intro p hp
      simpa using (List.mem_filter.mp hp).2
    · intro r hr
      simpa using (List.mem_filter.mp hr).2
  · intro db h
    induction h with
    | empty => exact noDangling_empty
    | insertAd db db' a _ heq ih => exact noDangling_insertAd heq ih
    | insertPhoto db db' p _ heq ih => exact noDangling_insertPhoto heq ih
    | insertReview db db' r _ heq ih => exact noDangling_insertReview heq ih
    | deleteAd db i _ ih => exact noDangling_deleteAd i ih

/-- Witness for C9: in a concrete reachable database with two
advertisements, deleting advertisement 1 leaves the photo and review of
advertisement 2, which dangle nowhere: the surviving photo does not
reference the deleted row and the resulting state keeps the invariant. -/
theorem C9_witness :
    (⟨10, 2, "u", 0⟩ : Photo).advertisement ≠ 1 ∧
    (DB.deleteAd
        ⟨[⟨1, "t1", "d1", 100, 1, 1, 1, 1, "draft"⟩,
          ⟨2, "t2", "d2", 200, 1, 1, 1, 1, "active"⟩],
         [⟨10, 2, "u", 0⟩], [⟨20, 2, 1, 5, "ok"⟩]⟩ 1).NoDangling := by
  have reach : DB.Reachable
      ⟨[⟨1, "t1", "d1", 100, 1, 1, 1, 1, "draft"⟩,
        ⟨2, "t2", "d2", 200, 1, 1, 1, 1, "active"⟩],
       [⟨10, 2, "u", 0⟩], [⟨20, 2, 1, 5, "ok"⟩]⟩ :=
    DB.Reachable.insertReview
      ⟨[⟨1, "t1", "d1", 100, 1, 1, 1, 1, "draft"⟩,
        ⟨2, "t2", "d2", 200, 1, 1, 1, 1, "active"⟩],
       [⟨10, 2, "u", 0⟩], []⟩
      ⟨[⟨1, "t1", "d1", 100, 1, 1, 1, 1, "draft"⟩,
        ⟨2, "t2", "d2", 200, 1, 1, 1, 1, "active"⟩],
       [⟨10, 2, "u", 0⟩], [⟨20, 2, 1, 5, "ok"⟩]⟩
      ⟨20, 2, 1, 5, "ok"⟩
      (DB.Reachable.insertPhoto
        ⟨[⟨1, "t1", "d1", 100, 1, 1, 1, 1, "draft"⟩,
          ⟨2, "t2", "d2", 200, 1, 1, 1, 1, "active"⟩], [], []⟩
        ⟨[⟨1, "t1", "d1", 100, 1, 1, 1, 1, "draft"⟩,
          ⟨2, "t2", "d2", 200, 1, 1, 1, 1, "active"⟩],
         [⟨10, 2, "u", 0⟩], []⟩
        ⟨10, 2, "u", 0⟩
        (DB.Reachable.insertAd
          ⟨[⟨1, "t1", "d1", 100, 1, 1, 1, 1, "draft"⟩], [], []⟩
          ⟨[⟨1, "t1", "d1", 100, 1, 1, 1, 1, "draft"⟩,
            ⟨2, "t2", "d2", 200, 1, 1, 1, 1, "active"⟩], [], []⟩
          ⟨2, "t2", "d2", 200, 1, 1, 1, 1, "active"⟩
          (DB.Reachable.insertAd ⟨[], [], []⟩
            ⟨[⟨1, "t1", "d1", 100, 1, 1, 1, 1, "draft"⟩], [], []⟩
            ⟨1, "t1", "d1", 100, 1, 1, 1, 1, "draft"⟩
            DB.Reachable.empty (by decide))
          (by decide))
        (by decide))
      (by decide)
  constructor
  · exact (C9_cascade_delete_no_dangling.1
        ⟨[⟨1, "t1", "d1", 100, 1, 1, 1, 1, "draft"⟩,
          ⟨2, "t2", "d2", 200, 1, 1, 1, 1, "active"⟩],
         [⟨10, 2, "u", 0⟩], [⟨20, 2, 1, 5, "ok"⟩]⟩ 1).1
      ⟨10, 2, "u", 0⟩ (by decide)
  · exact C9_cascade_delete_no_dangling.2 _
      (DB.Reachable.deleteAd _ 1 reach)

end Kluchikru
